import Mathlib

/-!
Verification of the parallel task dispatcher and the mock tools of the
eino-minimax demo repository (`step4_multi_agent_parallel.go`,
`step3_react_agent.go`), via a shallow embedding in Lean.

Modelling conventions:
* Go `map[string]string` values (the decoded tasks) are association lists;
  indexing a missing key yields the zero value `""`, as in Go.
* `json.Unmarshal` is standard-library code external to the repository, so a
  tool run is parameterised by the decode outcome, an
  `Except String <decoded value>`: `.error e` is the branch where
  `json.Unmarshal` returned an error `e`, `.ok v` the branch where it decoded
  `v`.  The shape of the decoded value (`[]map[string]string`,
  `WeatherParams`, `CalculatorParams`) matches the Go target type.
* Wall-clock time is in integer milliseconds (`time.Duration.Milliseconds()`
  is an integer; its cast to `float64` is exact at these magnitudes).
  The scheduler's nondeterminism — when each goroutine gets to run, how long
  its simulated sleep lasts, and in which order the buffered channel receives
  the reports — is a `Schedule` parameter.
* Go `float64` calculator operands are modelled as rationals; the
  `fmt.Sprintf` rendering of the numeric result is kept abstract in the
  output type (the payload carries the computed value).
* A Go return pair `(string, error)` becomes a Lean pair whose second
  component is `Option String`; `none` is Go's `nil` error.
-/

/-- A decoded task object (`map[string]string` in Go): an association list of
string keys to string values. -/
def TaskMap : Type := List (String × String)

/-- Go map indexing `m[k]` on a `map[string]string`: the stored value, or the
zero value `""` when the key is absent. -/
def goMapGet (m : TaskMap) (k : String) : String :=
  match m.lookup k with
  | some v => v
  | none => ""

/-- `AgentReport` from step4_multi_agent_parallel.go.  `Duration` is
`float64(time.Since(startTime).Milliseconds())`, an integer number of
milliseconds; `Timestamp` is the absolute wall-clock time (ms) at emission. -/
structure AgentReport where
  agentName : String
  task : String
  status : String
  result : String
  duration : Nat
  timestamp : Nat
  deriving DecidableEq, Repr

/-- `TaskResult` from step4_multi_agent_parallel.go: the aggregate returned by
the parallel dispatcher (before `json.MarshalIndent`). -/
structure TaskResult where
  task : String
  status : String
  reports : List AgentReport
  summary : String
  deriving DecidableEq, Repr

/-- One execution schedule for a batch of `n` spawned goroutines:
`startOffset i` is the delay (ms after `startTime`) before goroutine `i`'s
body begins, `sleepMs i` its simulated sleep
(`500 + time.Now().UnixNano()%1000` ms, hence in `[500, 1499]`), and `order`
the arrival order of the reports in the buffered channel — a permutation of
the spawn indices, because each goroutine sends exactly one report and the
channel (capacity `n`) drops nothing. -/
structure Schedule (n : Nat) where
  startOffset : Fin n → Nat
  sleepMs : Fin n → Nat
  order : List (Fin n)
  order_perm : order.Perm (List.finRange n)
  sleep_range : ∀ i, 500 ≤ sleepMs i ∧ sleepMs i ≤ 1499

/-- Time (ms after `startTime`) at which goroutine `i` emits its report:
its start offset plus its simulated sleep. -/
def Schedule.emitTime {n : Nat} (sc : Schedule n) (i : Fin n) : Nat :=
  sc.startOffset i + sc.sleepMs i

/-- The report goroutine `i` sends on the channel (loop body of
`ParallelTaskTool.Run`): agent tag and task name are read from the decoded
map, status is the literal `"completed"`, result the formatted string, and
`Duration` is `time.Since(startTime)` at emission, i.e. the time elapsed
since the whole batch started. -/
def runReport (batchStart : Nat) (ts : List TaskMap) (sc : Schedule ts.length)
    (i : Fin ts.length) : AgentReport :=
  { agentName := goMapGet (ts.get i) "agent_type"
  , task := goMapGet (ts.get i) "name"
  , status := "completed"
  , result := "✅ " ++ goMapGet (ts.get i) "name" ++ " 已完成"
  , duration := sc.emitTime i
  , timestamp := batchStart + sc.emitTime i }

/-- The success path of `ParallelTaskTool.Run` after decoding: spawn one
goroutine per task, wait for all (`wg.Wait`), drain the channel in arrival
order into `reports`, and build the `TaskResult` with the summary
`fmt.Sprintf("并行任务完成！共 %d 个任务，%d 个成功", len(tasks), len(reports))`. -/
def runDispatch (batchStart : Nat) (ts : List TaskMap)
    (sc : Schedule ts.length) : TaskResult :=
  let reports := sc.order.map (runReport batchStart ts sc)
  { task := "并行开发任务"
  , status := "completed"
  , reports := reports
  , summary := "并行任务完成！共 " ++ toString ts.length ++ " 个任务，"
      ++ toString reports.length ++ " 个成功" }

/-- `ParallelTaskTool.Run` as a whole, returning Go's `(string, error)` pair.
The first component is either the literal error payload produced when
`json.Unmarshal` fails (`.inl`), or the `TaskResult` that gets marshalled to
JSON on success (`.inr`; `json.MarshalIndent`'s rendering is abstracted, its
error is discarded by the source via `data, _ :=`).  The second component is
the Go `error`, which is `nil` (`none`) on both paths.  The schedule for the
decoded task list is the environment's choice, hence a parameter. -/
def ParallelTaskToolRun (batchStart : Nat)
    (decoded : Except String (List TaskMap))
    (sched : (ts : List TaskMap) → Schedule ts.length) :
    (String ⊕ TaskResult) × Option String :=
  match decoded with
  | .error e =>
      (Sum.inl ("\x7b\"error\": \"参数解析失败: " ++ e ++ "\"\x7d"), none)
  | .ok ts => (Sum.inr (runDispatch batchStart ts (sched ts)), none)

/-- A concrete schedule usable on any decoded task list: every goroutine
starts immediately, sleeps 500 ms, and the reports arrive in spawn order. -/
def promptSched (ts : List TaskMap) : Schedule ts.length :=
  { startOffset := fun _ => 0
  , sleepMs := fun _ => 500
  , order := List.finRange ts.length
  , order_perm := List.Perm.refl _
  , sleep_range := fun _ => (by decide : 500 ≤ 500 ∧ 500 ≤ 1499) }

/-- A schedule for a singleton batch whose lone goroutine is held back 7 ms
by the scheduler before its 500 ms sleep begins. -/
def lateStartSched (t : TaskMap) : Schedule [t].length :=
  { startOffset := fun _ => 7
  , sleepMs := fun _ => 500
  , order := List.finRange 1
  , order_perm := List.Perm.refl _
  , sleep_range := fun _ => (by decide : 500 ≤ 500 ∧ 500 ≤ 1499) }

/-- A sample decoded task, as in the spec's end-to-end example. -/
def designTask : TaskMap := [("name", "design"), ("agent_type", "architect")]

/-- A second sample decoded task. -/
def codeTask : TaskMap := [("name", "code"), ("agent_type", "backend_dev")]

/-- Execution state of `ParallelTaskTool.Run`'s fan-out/collect phase for a
batch of `n` goroutines: `pending` are the spawned goroutines that have not
yet sent their report, `channel` the reports (identified by their spawn
index) in arrival order, and `result` the collected report list, `none` until
the dispatcher has passed `wg.Wait`, closed the channel and drained it. -/
structure ExecState (n : Nat) where
  pending : Finset (Fin n)
  channel : List (Fin n)
  result : Option (List (Fin n))
  deriving DecidableEq

/-- Initial state: all `n` goroutines spawned and pending, channel empty,
no result yet. -/
def initState (n : Nat) : ExecState n :=
  { pending := Finset.univ, channel := [], result := none }

/-- Interleaved small-step semantics of the fan-out/collect phase.  `emit`:
a pending goroutine finishes its sleep and sends its report (a send precedes
the deferred `wg.Done`, so a goroutine leaves `pending` only together with
its send).  `ret`: `wg.Wait` returns — possible only when no goroutine is
pending — after which the channel is closed, fully drained, and the drained
contents become the result.  There is no step that produces a result while
some goroutine is still pending. -/
inductive DispatchStep (n : Nat) : ExecState n → ExecState n → Prop
  | emit (s : ExecState n) (i : Fin n) (hi : i ∈ s.pending)
      (hr : s.result = none) :
      DispatchStep n s
        { pending := s.pending.erase i, channel := s.channel ++ [i]
        , result := none }
  | ret (s : ExecState n) (hp : s.pending = ∅) (hr : s.result = none) :
      DispatchStep n s
        { pending := ∅, channel := s.channel, result := some s.channel }

/-- States reachable from the initial state by dispatcher steps. -/
inductive DispatchReachable (n : Nat) : ExecState n → Prop
  | init : DispatchReachable n (initState n)
  | step {s t : ExecState n} : DispatchReachable n s → DispatchStep n s t →
      DispatchReachable n t

/-- Step invariant: the pending goroutines and the channel contents always
partition the batch, and a result, once present, is exactly the channel
contents at a moment when nothing was pending. -/
def dispatchInv {n : Nat} (s : ExecState n) : Prop :=
  s.pending.val + (s.channel : Multiset (Fin n))
      = (Finset.univ : Finset (Fin n)).val
    ∧ ∀ rs, s.result = some rs → s.pending = ∅ ∧ rs = s.channel

/-- `WeatherParams` from step3_react_agent.go: the decode target of the
weather tool's argument string. -/
structure WeatherParams where
  city : String
  date : String
  deriving DecidableEq, Repr

/-- The mock weather table of `WeatherTool.Run`: city → (date → forecast). -/
def weatherData : List (String × List (String × String)) :=
  [ ("北京", [("2026-02-05", "晴，-5°C~5°C"), ("2026-02-06", "多云，-3°C~7°C")])
  , ("上海", [("2026-02-05", "小雨，3°C~10°C"), ("2026-02-06", "阴，2°C~8°C")])
  , ("深圳", [("2026-02-05", "晴，15°C~24°C"), ("2026-02-06", "多云，16°C~25°C")]) ]

/-- `WeatherTool.Run` from step3_react_agent.go, returning Go's
`(string, error)` pair: decode failure, unknown city and unknown date each
yield a JSON payload with a `nil` error; a hit yields the forecast payload. -/
def WeatherToolRun (decoded : Except String WeatherParams) :
    String × Option String :=
  match decoded with
  | .error e => ("\x7b\"error\": \"参数解析失败: " ++ e ++ "\"\x7d", none)
  | .ok params =>
    match weatherData.lookup params.city with
    | none =>
        ("\x7b\"city\": \"" ++ params.city
          ++ "\", \"weather\": \"数据未找到\"\x7d", none)
    | some cityData =>
      match cityData.lookup params.date with
      | none =>
          ("\x7b\"city\": \"" ++ params.city ++ "\", \"date\": \""
            ++ params.date ++ "\", \"weather\": \"数据未找到\"\x7d", none)
      | some w =>
          ("\x7b\"city\": \"" ++ params.city ++ "\", \"date\": \""
            ++ params.date ++ "\", \"weather\": \"" ++ w ++ "\"\x7d", none)

/-- `CalculatorParams` from step3_react_agent.go: two `float64` operands
(modelled as rationals) and an operator string. -/
structure CalculatorParams where
  a : ℚ
  b : ℚ
  operator : String
  deriving DecidableEq, Repr

/-- The result string of `Calculator.InvokableRun`: either one of the literal
`{"error": ...}` payloads (with the brace-free message carried), or the
`{"result": %.2f}` payload carrying the computed value (the fixed-point
decimal rendering of the `float64` is abstracted). -/
inductive CalcOutput where
  | errorPayload (msg : String)
  | resultPayload (x : ℚ)
  deriving DecidableEq, Repr

/-- `Calculator.InvokableRun` from step3_react_agent.go: decode the params,
dispatch on the operator exactly as the Go `switch` does (`"add"`/`"+"`,
`"sub"`/`"-"`, `"mul"`/`"*"`, `"div"`/`"/"`, default), guard division by a
zero divisor before dividing, and always return a `nil` Go error. -/
def CalculatorInvokableRun (decoded : Except String CalculatorParams) :
    CalcOutput × Option String :=
  match decoded with
  | .error e => (.errorPayload ("参数解析失败: " ++ e), none)
  | .ok p =>
    match p.operator with
    | "add" | "+" => (.resultPayload (p.a + p.b), none)
    | "sub" | "-" => (.resultPayload (p.a - p.b), none)
    | "mul" | "*" => (.resultPayload (p.a * p.b), none)
    | "div" | "/" =>
      if p.b = 0 then (.errorPayload "除数不能为零", none)
      else (.resultPayload (p.a / p.b), none)
    | _ => (.errorPayload ("不支持的运算符: " ++ p.operator), none)

/-- Helper: the summary string of a dispatch mentions the input length for
both counts, since the number of collected reports equals the number of
tasks. -/
theorem runDispatch_summary (batchStart : Nat) (ts : List TaskMap)
    (sc : Schedule ts.length) :
    (runDispatch batchStart ts sc).summary
      = "并行任务完成！共 " ++ toString ts.length ++ " 个任务，"
        ++ toString ts.length ++ " 个成功" := by
  simp [runDispatch, sc.order_perm.length_eq]

theorem dispatchInv_step {n : Nat} {s t : ExecState n}
    (hstep : DispatchStep n s t) (h : dispatchInv s) : dispatchInv t := by
  obtain ⟨hsum, _⟩ := h
  cases hstep with
  | emit i hi hr =>
    refine ⟨?_, fun rs hrs => by simp at hrs⟩
    have hmem : i ∈ s.pending.val := hi
    show (s.pending.erase i).val + ((s.channel ++ [i] : List (Fin n)) :
        Multiset (Fin n)) = _
    rw [← hsum, ← Multiset.cons_erase hmem]
    simp only [Finset.erase_val, ← Multiset.coe_add, Multiset.coe_singleton,
      ← Multiset.singleton_add]
    abel
  | ret hp hr =>
    rw [hp] at hsum
    refine ⟨?_, fun rs hrs => ⟨rfl, by simpa using hrs.symm⟩⟩
    simpa using hsum

theorem dispatchInv_of_reachable {n : Nat} {s : ExecState n}
    (hs : DispatchReachable n s) : dispatchInv s := by
  induction hs with
  | init =>
    exact ⟨by simp [initState], fun rs hrs => by simp [initState] at hrs⟩
  | step _ hstep ih => exact dispatchInv_step hstep ih

/-- C1: for every decoded task list (any length, including 0), the dispatcher
returns a `TaskResult` whose `Reports` collection has length exactly the
number of tasks: each goroutine contributes exactly one report and none is
dropped by the channel. -/
theorem C1_reports_length (batchStart : Nat) (ts : List TaskMap)
    (sched : (ts : List TaskMap) → Schedule ts.length) :
    (ParallelTaskToolRun batchStart (Except.ok ts) sched).1
      = Sum.inr (runDispatch batchStart ts (sched ts))
    ∧ (runDispatch batchStart ts (sched ts)).reports.length = ts.length := by
  refine ⟨rfl, ?_⟩
  simp [runDispatch, (sched ts).order_perm.length_eq]

/-- C2: the result is observable only after a full join.  In every reachable
state of the fan-out/collect semantics, if the collected result is present
then it contains exactly one report per spawned goroutine — a permutation of
all `n` spawn indices.  No partial result is ever produced. -/
theorem C2_full_join {n : Nat} (s : ExecState n) (hs : DispatchReachable n s)
    (rs : List (Fin n)) (hr : s.result = some rs) :
    rs.Perm (List.finRange n) := by
  obtain ⟨hsum, hres⟩ := dispatchInv_of_reachable hs
  obtain ⟨hp, rfl⟩ := hres rs hr
  rw [hp] at hsum
  have hch : (s.channel : Multiset (Fin n))
      = ((List.finRange n : List (Fin n)) : Multiset (Fin n)) := by
    have := hsum
    rw [Fin.univ_def] at this
    simpa using this
  exact Multiset.coe_eq_coe.mp hch

/-- C2 witness: for a one-task batch, the run that emits report 0 and then
returns reaches a state whose result is `[0]`, a permutation of all spawn
indices. -/
theorem C2_full_join_witness :
    ([(0 : Fin 1)] : List (Fin 1)).Perm (List.finRange 1) := by
  have h0 : DispatchReachable 1 (initState 1) := .init
  have h1 := DispatchReachable.step h0
    (DispatchStep.emit (initState 1) 0 (by decide) rfl)
  have h2 := DispatchReachable.step h1 (DispatchStep.ret _ (by decide) rfl)
  exact C2_full_join _ h2 _ rfl

/-- C3 counterexample: on the empty task list the summary string produced by
the code is the Chinese format string
`"并行任务完成！共 0 个任务，0 个成功"`, not the literal
`"0 tasks total, 0 succeeded"` the claim states. -/
theorem C3_counterexample :
    (runDispatch 0 [] (promptSched [])).summary ≠ "0 tasks total, 0 succeeded"
    ∧ (runDispatch 0 [] (promptSched [])).summary
        = "并行任务完成！共 0 个任务，0 个成功" := by
  constructor
  · decide
  · rfl

/-- C3 (amended): for every decoded task list, the summary string is
`"并行任务完成！共 <N> 个任务，<M> 个成功"` where both the total count `N` and
the success count `M` equal the input length (`M` is the number of reports
collected, which always equals `N`); in particular on the empty input it is
`"并行任务完成！共 0 个任务，0 个成功"`. -/
theorem C3_summary_counts (batchStart : Nat) (ts : List TaskMap)
    (sc : Schedule ts.length) :
    (runDispatch batchStart ts sc).summary
      = "并行任务完成！共 " ++ toString ts.length ++ " 个任务，"
        ++ toString ts.length ++ " 个成功" :=
  runDispatch_summary batchStart ts sc

/-- C4: every report the dispatcher collects has status `"completed"`; no
execution assigns `"failed"` or `"in_progress"` to a collected report. -/
theorem C4_status_completed (batchStart : Nat) (ts : List TaskMap)
    (sc : Schedule ts.length) (r : AgentReport)
    (hr : r ∈ (runDispatch batchStart ts sc).reports) :
    r.status = "completed" := by
  simp only [runDispatch, List.mem_map] at hr
  obtain ⟨i, _, rfl⟩ := hr
  rfl

/-- C4 witness: the concrete two-task batch contains the `design` report,
and the theorem yields its status. -/
theorem C4_status_completed_witness :
    runReport 0 [designTask, codeTask] (promptSched [designTask, codeTask])
        ⟨0, by decide⟩
      ∈ (runDispatch 0 [designTask, codeTask]
          (promptSched [designTask, codeTask])).reports
    ∧ (runReport 0 [designTask, codeTask] (promptSched [designTask, codeTask])
        ⟨0, by decide⟩).status = "completed" :=
  ⟨by decide, C4_status_completed 0 [designTask, codeTask]
    (promptSched [designTask, codeTask]) _ (by decide)⟩

/-- C5: when the payload does not decode, `ParallelTaskTool.Run` returns
exactly the single error-shaped JSON string with a `nil` Go error — no
`TaskResult` (partial or otherwise) — and the outcome is independent of the
scheduling environment, since no unit of work is spawned on this path. -/
theorem C5_parse_error_payload (batchStart : Nat) (e : String)
    (sched sched' : (ts : List TaskMap) → Schedule ts.length) :
    ParallelTaskToolRun batchStart (Except.error e) sched
      = (Sum.inl ("\x7b\"error\": \"参数解析失败: " ++ e ++ "\"\x7d"), none)
    ∧ ParallelTaskToolRun batchStart (Except.error e) sched
      = ParallelTaskToolRun batchStart (Except.error e) sched' :=
  ⟨rfl, rfl⟩

/-- C6: the multiset of (task name, agent tag) pairs carried by the collected
reports equals the multiset of (`"name"`, `"agent_type"`) fields of the input
tasks, whatever the completion order; consequently two runs on the same input
under different schedules agree on the multiset of task names (though not
necessarily on report order). -/
theorem C6_multiset_pairs (batchStart batchStart' : Nat) (ts : List TaskMap)
    (sc sc' : Schedule ts.length) :
    ((runDispatch batchStart ts sc).reports.map
        (fun r => (r.task, r.agentName))).Perm
      (ts.map (fun t => (goMapGet t "name", goMapGet t "agent_type")))
    ∧ ((runDispatch batchStart ts sc).reports.map
        (fun r => r.task)).Perm
      ((runDispatch batchStart' ts sc').reports.map (fun r => r.task)) := by
  have key : ∀ (bs : Nat) (s : Schedule ts.length),
      ((runDispatch bs ts s).reports.map (fun r => (r.task, r.agentName)))
        = s.order.map (fun i =>
            (goMapGet (ts.get i) "name", goMapGet (ts.get i) "agent_type")) := by
    intro bs s
    simp [runDispatch, runReport, Function.comp_def]
  constructor
  · rw [key]
    have h := (sc.order_perm.map (fun i =>
      (goMapGet (ts.get i) "name", goMapGet (ts.get i) "agent_type")))
    refine h.trans ?_
    have : (List.finRange ts.length).map (fun i =>
        (goMapGet (ts.get i) "name", goMapGet (ts.get i) "agent_type"))
        = ts.map (fun t => (goMapGet t "name", goMapGet t "agent_type")) := by
      rw [show (fun i => (goMapGet (ts.get i) "name",
            goMapGet (ts.get i) "agent_type"))
          = (fun t => (goMapGet t "name", goMapGet t "agent_type")) ∘ ts.get
        from rfl, ← List.map_map, List.finRange_map_get]
    rw [this]
  · have h1 : ∀ (bs : Nat) (s : Schedule ts.length),
        ((runDispatch bs ts s).reports.map (fun r => r.task)).Perm
          (ts.map (fun t => goMapGet t "name")) := by
      intro bs s
      have : ((runDispatch bs ts s).reports.map (fun r => r.task))
          = s.order.map (fun i => goMapGet (ts.get i) "name") := by
        simp [runDispatch, runReport, Function.comp_def]
      rw [this]
      refine (s.order_perm.map _).trans ?_
      rw [show (fun i => goMapGet (ts.get i) "name")
          = (fun t => goMapGet t "name") ∘ ts.get from rfl,
        ← List.map_map, List.finRange_map_get]
    exact (h1 batchStart sc).trans (h1 batchStart' sc').symm

/-- C7: each report's `Duration` is the time (ms) elapsed from the batch's
`startTime` to the moment the report is emitted — equal to its timestamp
minus the batch start, and to the goroutine's start offset plus its sleep —
and whenever the goroutine's own start is strictly after the batch start,
this differs from the task's own elapsed time (its sleep alone). -/
theorem C7_duration_from_batch_start (batchStart : Nat) (ts : List TaskMap)
    (sc : Schedule ts.length) (i : Fin ts.length) :
    (runReport batchStart ts sc i).duration
      = (runReport batchStart ts sc i).timestamp - batchStart
    ∧ (runReport batchStart ts sc i).duration
      = sc.startOffset i + sc.sleepMs i
    ∧ (0 < sc.startOffset i →
        (runReport batchStart ts sc i).duration ≠ sc.sleepMs i) := by
  refine ⟨?_, rfl, ?_⟩
  · simp [runReport]
  · intro h
    simp only [runReport, Schedule.emitTime]
    omega

/-- C7 witness: with the lone goroutine held back 7 ms, its report's duration
is start offset plus sleep (507 ms since batch start), not the 500 ms the
task's own work took. -/
theorem C7_duration_witness :
    0 < (lateStartSched designTask).startOffset ⟨0, by decide⟩
    ∧ (runReport 0 [designTask] (lateStartSched designTask)
        ⟨0, by decide⟩).duration
        ≠ (lateStartSched designTask).sleepMs ⟨0, by decide⟩ :=
  ⟨by decide,
    (C7_duration_from_batch_start 0 [designTask] (lateStartSched designTask)
      ⟨0, by decide⟩).2.2 (by decide)⟩

/-- C8: no tool invocation raises outward.  For every decode outcome (and,
for the dispatcher, every schedule), the calculator, the weather lookup and
the parallel dispatcher return a `nil` Go error; every internal failure is
encoded in the result payload instead. -/
theorem C8_no_go_error :
    (∀ d, (CalculatorInvokableRun d).2 = none)
    ∧ (∀ d, (WeatherToolRun d).2 = none)
    ∧ ∀ batchStart d sched, (ParallelTaskToolRun batchStart d sched).2 = none := by
  refine ⟨?_, ?_, ?_⟩
  · intro d
    unfold CalculatorInvokableRun
    split
    · rfl
    · split <;> first | rfl | (split <;> rfl)
  · intro d
    unfold WeatherToolRun
    split
    · rfl
    · split
      · rfl
      · split <;> rfl
  · intro batchStart d sched
    unfold ParallelTaskToolRun
    split <;> rfl

/-- C9: on every decoded calculator argument the returned payload is the
reference arithmetic of the two operands — `add`/`+` gives `a + b`, `sub`/`-`
gives `a - b`, `mul`/`*` gives `a * b`, and `div`//`/` with a non-zero
divisor gives `a / b` — while `div`//`/` with divisor `0` is caught by the
guard before any division and yields the error payload. -/
theorem C9_calculator_semantics (p : CalculatorParams) :
    ((p.operator = "add" ∨ p.operator = "+") →
      CalculatorInvokableRun (Except.ok p)
        = (CalcOutput.resultPayload (p.a + p.b), none))
    ∧ ((p.operator = "sub" ∨ p.operator = "-") →
      CalculatorInvokableRun (Except.ok p)
        = (CalcOutput.resultPayload (p.a - p.b), none))
    ∧ ((p.operator = "mul" ∨ p.operator = "*") →
      CalculatorInvokableRun (Except.ok p)
        = (CalcOutput.resultPayload (p.a * p.b), none))
    ∧ ((p.operator = "div" ∨ p.operator = "/") → p.b ≠ 0 →
      CalculatorInvokableRun (Except.ok p)
        = (CalcOutput.resultPayload (p.a / p.b), none))
    ∧ ((p.operator = "div" ∨ p.operator = "/") → p.b = 0 →
      CalculatorInvokableRun (Except.ok p)
        = (CalcOutput.errorPayload "除数不能为零", none)) := by
  obtain ⟨a, b, op⟩ := p
  refine ⟨?_, ?_, ?_, ?_, ?_⟩
  · rintro (rfl | rfl) <;> rfl
  · rintro (rfl | rfl) <;> rfl
  · rintro (rfl | rfl) <;> rfl
  · rintro (rfl | rfl) <;> intro hb <;> simp [CalculatorInvokableRun, hb]
  · rintro (rfl | rfl) <;> intro hb <;> simp at hb <;>
      simp [CalculatorInvokableRun, hb]

/-- C9 witness: dividing 10 by 4 takes the guarded division branch and
returns the exact quotient payload. -/
theorem C9_calculator_semantics_witness :
    ((("div" : String) = "div" ∨ ("div" : String) = "/") ∧ (4 : ℚ) ≠ 0)
    ∧ CalculatorInvokableRun
        (Except.ok { a := 10, b := 4, operator := "div" })
      = (CalcOutput.resultPayload ((10 : ℚ) / 4), none) :=
  ⟨⟨Or.inl rfl, by norm_num⟩,
    (C9_calculator_semantics { a := 10, b := 4, operator := "div" }).2.2.2.1
      (Or.inl rfl) (by norm_num)⟩

/-- C10: the summary string depends only on the number of decoded tasks, not
on their names, agent types or descriptions: two runs on equal-length task
lists (any schedules, any batch start times) produce identical summaries. -/
theorem C10_summary_only_length (bs bs' : Nat) (ts ts' : List TaskMap)
    (sc : Schedule ts.length) (sc' : Schedule ts'.length)
    (hlen : ts.length = ts'.length) :
    (runDispatch bs ts sc).summary = (runDispatch bs' ts' sc').summary := by
  rw [runDispatch_summary, runDispatch_summary, hlen]

/-- C10 witness: the design/code batch and a batch of two unrelated tasks
have equal length, and the theorem gives equal summaries. -/
theorem C10_summary_only_length_witness :
    ([designTask, codeTask].length = [codeTask, ([] : TaskMap)].length)
    ∧ (runDispatch 0 [designTask, codeTask]
        (promptSched [designTask, codeTask])).summary
      = (runDispatch 3 [codeTask, ([] : TaskMap)]
          (promptSched [codeTask, ([] : TaskMap)])).summary :=
  ⟨rfl, C10_summary_only_length 0 3 [designTask, codeTask]
    [codeTask, ([] : TaskMap)] _ _ rfl⟩
